import Mathlib

/-!
Shallow embedding of `python/flatbuffers/vectors.py` (lazy vector views over a
flatbuffers table) and proofs about its behavior.

Python integers are modelled as `Int` (arbitrary precision), Python exceptions
as an explicit `Except PyError` result, and the external table/byte-buffer
collaborator as a structure of abstract accessor functions matching the
contract the module consumes (`VectorLen`, `Vector`, `Get`, `String`, `Bytes`).
-/

namespace Vectors

/-- The Python exceptions that the vector layer can raise. -/
inductive PyError where
  | indexError (msg : String)
  | typeError (msg : String)
  | nameError (name : String)
  | valueError (msg : String)
  | stopIteration
  | notImplementedError
  deriving Repr, DecidableEq

/-- Modelled from the spec (§1, §2): the scalar type/width descriptor
(`flags`, from the external `number_types` module, which is not under `src/`);
the module consumes only its `bytewidth` plus its identity as a decoding rule,
so it is modelled as byte width together with an opaque decode-rule tag. -/
structure Flags where
  bytewidth : Int
  typecode : Nat
  deriving Repr, DecidableEq

/-- Modelled from the spec (§6, "Consumed from the table/byte-buffer
collaborator"): the external `flatbuffers.Table` accessor, which is not under
`src/`. `VectorLen` is the length-lookup primitive, `Vector` resolves the
vector's data address, `Get` is the typed scalar read, `Str` is the
string-resolution primitive (Python method name `String`), and `Bytes` is the
underlying byte buffer. All are abstract pure functions. -/
structure Table where
  Bytes : List Nat
  VectorLen : Int → Int
  Vector : Int → Int
  Get : Flags → Int → Int
  Str : Int → String

/-- A Python value produced by one element access of a vector view. -/
inductive Value where
  | int (n : Int)
  | str (s : String)
  /-- A struct projection: `item = struct_class(); item.Init(bytes, pos)` —
  identified by the struct class, the byte buffer it borrows, and the address
  it is anchored at (no bytes are copied). -/
  | struct (cls : Nat) (buf : List Nat) (pos : Int)
  /-- Python `None` (the result of a function body that is a bare `pass`). -/
  | pynone
  deriving Repr, DecidableEq

/-- The result of `__getitem__`: a single element, or the list a slice
materializes. -/
inductive PyObj where
  | val (v : Value)
  | list (vs : List Value)
  deriving Repr, DecidableEq

/-- A Python `slice` object: `slice(start, stop, step)`, each component
optional. -/
structure PySlice where
  start : Option Int
  stop : Option Int
  step : Option Int
  deriving Repr, DecidableEq

/-- CPython `slice.indices(length)`: normalizes the slice against a sequence
length, clamping start/stop into range and interpreting negative indices
relative to `length`; raises `ValueError` on zero step or negative length. -/
def PySlice.indices (s : PySlice) (length : Int) : Except PyError (Int × Int × Int) :=
  if length < 0 then .error (.valueError "length should not be negative")
  else
    let step := s.step.getD 1
    if step = 0 then .error (.valueError "slice step cannot be zero")
    else
      let lower := if step < 0 then -1 else 0
      let upper := if step < 0 then length - 1 else length
      let start :=
        match s.start with
        | none => if step < 0 then upper else lower
        | some st => if st < 0 then max (st + length) lower else min st upper
      let stop :=
        match s.stop with
        | none => if step < 0 then lower else upper
        | some sp => if sp < 0 then max (sp + length) lower else min sp upper
      .ok (start, stop, step)

/-- The number of elements of `range(start, stop, step)` (for `step ≠ 0`). -/
def rangeLen (start stop step : Int) : Nat :=
  if 0 < step then ((stop - start + step - 1) / step).toNat
  else if step < 0 then ((start - stop + (-step) - 1) / (-step)).toNat
  else 0

/-- The list of integers Python `range(start, stop, step)` enumerates. -/
def rangeList (start stop step : Int) : List Int :=
  (List.range (rangeLen start stop step)).map (fun k => start + (k : Int) * step)

/-- Modelled from the spec: `compat.range_func` comes from the repository's
`compat` module, which is not under `src/`; per §4.1 the default slice
implementation "repeatedly invokes `get` for each resulting index", so
`range_func` applied to the normalized `(start, stop, step)` triple is
modelled as the standard range enumeration of those indices. -/
def range_func (t : Int × Int × Int) : List Int :=
  rangeList t.1 t.2.1 t.2.2

/-- The index key passed to `__getitem__`. Python `bool` is a subclass of
`int`, so it is a separate constructor that `isinstance(·, int)` matches;
`str` and `float` keys represent keys that are neither integers nor slices. -/
inductive PyKey where
  | int (n : Int)
  | bool (b : Bool)
  | slice (s : PySlice)
  | str (s : String)
  | float
  deriving Repr, DecidableEq

/-- `isinstance(key, int)`: true for Python `int` and for `bool` (a subclass
of `int`). -/
def PyKey.isInt : PyKey → Bool
  | .int _ => true
  | .bool _ => true
  | _ => false

/-- `isinstance(key, slice)`. -/
def PyKey.isSlice : PyKey → Bool
  | .slice _ => true
  | _ => false

/-- The integer value of an integer-like key (`True == 1`, `False == 0`);
meaningless for other keys. -/
def PyKey.asInt : PyKey → Int
  | .int n => n
  | .bool b => if b then 1 else 0
  | _ => 0

/-- `type(key).__name__` for the non-integer, non-slice keys. -/
def PyKey.typeName : PyKey → String
  | .int _ => "int"
  | .bool _ => "bool"
  | .slice _ => "slice"
  | .str _ => "str"
  | .float => "float"

/-- The state stored by the base class `VectorIndexer` (its `__slots__`):
`_table`, `_offset`, `_length`, `_stride`. -/
structure VectorIndexer where
  table : Table
  offset : Int
  length : Int
  stride : Int

/-- Embeds `VectorIndexer.__init__(table, offset, stride)`: stores the
arguments and reads the length once via `table.VectorLen(offset)`. -/
def VectorIndexer.make (table : Table) (offset stride : Int) : VectorIndexer :=
  { table := table, offset := offset, length := table.VectorLen offset, stride := stride }

/-- A constructed vector view: the base state tagged by the dynamic class,
which fixes how `_unpack_index` / `_unpack_slice_index` dispatch. -/
inductive VIndexer where
  /-- a bare `VectorIndexer` (abstract base). -/
  | base (v : VectorIndexer)
  | structV (v : VectorIndexer) (struct_class : Nat)
  | simple (v : VectorIndexer) (flags : Flags)
  | stringV (v : VectorIndexer)

/-- The base state of a constructed view. -/
def VIndexer.core : VIndexer → VectorIndexer
  | .base v => v
  | .structV v _ => v
  | .simple v _ => v
  | .stringV v => v

/-- Embeds `StructVectorIndexer.__init__(table, offset, stride, struct_class)`:
base initialization plus storing the struct class. -/
def StructVectorIndexer.make (table : Table) (offset stride : Int) (struct_class : Nat) :
    VIndexer :=
  .structV (VectorIndexer.make table offset stride) struct_class

/-- Embeds `SimpleVectorIndexer.__init__(table, offset, flags)`: base
initialization with `stride = flags.bytewidth`, plus storing the flags. -/
def SimpleVectorIndexer.make (table : Table) (offset : Int) (flags : Flags) : VIndexer :=
  .simple (VectorIndexer.make table offset flags.bytewidth) flags

/-- Embeds `StringVectorIndexer.__init__(table, offset, stride)`. Its body is
`super(SimpleVectorIndexer, self).__init__(table, offset, stride)`, but `self`
is a `StringVectorIndexer`, which is not an instance or subclass of
`SimpleVectorIndexer`, so the `super(...)` call itself raises `TypeError`
before any state is initialized. -/
def StringVectorIndexer.make (table : Table) (offset stride : Int) :
    Except PyError VIndexer :=
  .error (.typeError "super(type, obj): obj must be an instance or subtype of type")

/-- What a plain base-class initialization of the string view would build
(the spec's intended `StringVectorIndexer.__init__`, §4.4/§9): base state from
the same `(table, offset, stride)`, tagged as the string variant. -/
def StringVectorIndexer.intendedMake (table : Table) (offset stride : Int) : VIndexer :=
  .stringV (VectorIndexer.make table offset stride)

/-- Embeds the `_unpack_index(index)` dispatch over the dynamic class.

* `VectorIndexer._unpack_index` raises `NotImplementedError`.
* `StructVectorIndexer._unpack_index` computes
  `a = table.Vector(offset) + index * stride` and returns a fresh struct
  projection `struct_class()` anchored by `Init(table.Bytes, a)`.
* `SimpleVectorIndexer._unpack_index` computes the same `a`, but then executes
  `return self._table.Get(self._flags, offset)`: `offset` is neither a
  parameter nor a local of the method and no module-level `offset` exists, so
  CPython raises `NameError: name 'offset' is not defined`.
* `StringVectorIndexer._unpack_index` computes `a` and returns
  `table.String(a)`. -/
def VIndexer.unpackIndex (vi : VIndexer) (index : Int) : Except PyError Value :=
  match vi with
  | .base _ => .error .notImplementedError
  | .structV v cls =>
      let a := v.table.Vector v.offset + index * v.stride
      .ok (.struct cls v.table.Bytes a)
  | .simple v _flags =>
      let _a := v.table.Vector v.offset + index * v.stride
      .error (.nameError "offset")
  | .stringV v =>
      let a := v.table.Vector v.offset + index * v.stride
      .ok (.str (v.table.Str a))

/-- Embeds the base `VectorIndexer._unpack_slice_index(slice_index)`:
`[self._unpack_index(i) for i in compat.range_func(slice_index.indices(self._length))]`
— normalize the slice against the cached length, then unpack each resulting
index in order into a list (an exception from any step propagates). -/
def VIndexer.baseUnpackSliceIndex (vi : VIndexer) (slice_index : PySlice) :
    Except PyError PyObj := do
  let t ← slice_index.indices vi.core.length
  let vals ← (range_func t).mapM vi.unpackIndex
  return .list vals

/-- Embeds the `_unpack_slice_index` dispatch: `SimpleVectorIndexer` overrides
it with a body that is a bare `pass`, so the call returns `None`; every other
class uses the base implementation. -/
def VIndexer.unpackSliceIndex (vi : VIndexer) (slice_index : PySlice) :
    Except PyError PyObj :=
  match vi with
  | .simple _ _ => .ok (.val .pynone)
  | _ => vi.baseUnpackSliceIndex slice_index

/-- Embeds `VectorIndexer.__getitem__(index)`: an `isinstance(index, int)` key
(which includes `bool`) is bounds-checked and unpacked; an
`isinstance(index, slice)` key goes to `_unpack_slice_index`; any other key
raises `TypeError`. -/
def VIndexer.getitem (vi : VIndexer) (key : PyKey) : Except PyError PyObj :=
  if key.isInt then
    let index := key.asInt
    if index < 0 ∨ index ≥ vi.core.length then
      .error (.indexError ("vector index " ++ toString index ++ " out of range"))
    else
      (vi.unpackIndex index).map .val
  else if let .slice s := key then
    vi.unpackSliceIndex s
  else
    .error (.typeError ("vector indices must be integers or slices, not " ++ key.typeName))

/-- Embeds `VectorIndexer.__len__`. -/
def VIndexer.len (vi : VIndexer) : Int :=
  vi.core.length

/-- The state stored by `VectorIterator` (its `__slots__`): the wrapped view
`_vec`, the cursor `_next_index`, and the length snapshot `_length`. -/
structure VectorIterator where
  vec : VIndexer
  next_index : Int
  length : Int

/-- Embeds `VectorIterator.__init__(vector_Indexer)`: after setting
`self._vec` and `self._next_index = 0`, it executes
`self._length = len(vector)`; the parameter is spelled `vector_Indexer` and no
name `vector` is in scope, so CPython raises
`NameError: name 'vector' is not defined` and construction fails. -/
def VectorIterator.make (vector_Indexer : VIndexer) : Except PyError VectorIterator :=
  .error (.nameError "vector")

/-- What the intended initialization would build (spec §4.5/§9: snapshot the
wrapped view's length at iterator construction, cursor at 0). -/
def VectorIterator.intendedMake (vector_Indexer : VIndexer) : VectorIterator :=
  { vec := vector_Indexer, next_index := 0, length := vector_Indexer.len }

/-- Embeds `VectorIndexer.__iter__`: `return VectorIterator(self)`. -/
def VIndexer.iter (vi : VIndexer) : Except PyError VectorIterator :=
  VectorIterator.make vi

/-- Embeds `VectorIterator.next`: if the cursor has reached the length
snapshot, raise `StopIteration`; otherwise fetch `self._vec[self._next_index]`,
advance the cursor by one, and return the item with the advanced iterator. -/
def VectorIterator.next (it : VectorIterator) : Except PyError (PyObj × VectorIterator) :=
  if it.next_index ≥ it.length then
    .error .stopIteration
  else
    (it.vec.getitem (.int it.next_index)).map
      (fun item => (item, { it with next_index := it.next_index + 1 }))

/-! ## A concrete table for witnesses (the spec's §8 scalar/string scenario) -/

/-- A 32-bit integer scalar descriptor. -/
def int32Flags : Flags :=
  { bytewidth := 4, typecode := 0 }

/-- A concrete external table: the vector field at offset 4 has 3 elements
starting at address 100; 32-bit reads there decode `10, 20, 30`; string
resolution at addresses 100 and 104 yields `"ab"` and `"xyz"`; the vector
field at offset 0 is empty. -/
def testTable : Table where
  Bytes := [10, 0, 0, 0, 20, 0, 0, 0, 30, 0, 0, 0]
  VectorLen := fun o => if o = 4 then 3 else 0
  Vector := fun o => if o = 4 then 100 else 0
  Get := fun _ a => if a = 100 then 10 else if a = 104 then 20 else if a = 108 then 30 else 0
  Str := fun a => if a = 100 then "ab" else if a = 104 then "xyz" else ""

/-- A concrete struct vector view over `testTable` (length 3, stride 8,
struct class tagged 7). -/
def structTestVI : VIndexer :=
  StructVectorIndexer.make testTable 4 8 7

/-- A concrete scalar vector view over `testTable` (length 3, stride 4). -/
def simpleTestVI : VIndexer :=
  SimpleVectorIndexer.make testTable 4 int32Flags

/-- A concrete empty struct vector view over `testTable` (offset 0, length 0). -/
def emptyTestVI : VIndexer :=
  StructVectorIndexer.make testTable 0 8 7

end Vectors

namespace Vectors

/-! ## Helper lemmas -/

/-- Mapping a pure cast over a list and then `mapM`-ing equals `mapM`-ing the
composite. -/
theorem mapM_map_cast (f : Int → Except PyError Value) (l : List Nat) :
    (l.map (fun k => (k : Int))).mapM f = l.mapM (fun k => f (k : Int)) := by
  induction l with
  | nil => rfl
  | cons a l ih => simp [List.mapM_cons, ih]

/-- The `range(0, L, 1)` enumeration is `0, 1, …, L-1`. -/
theorem rangeList_zero_len_one (L : Int) :
    rangeList 0 L 1 = (List.range L.toNat).map (fun k => (k : Int)) := by
  unfold rangeList rangeLen
  norm_num

/-- Normalizing the full-bounds slice `slice(0, L, 1)` against length `L ≥ 0`
is the identity normalization `(0, L, 1)`. -/
theorem indices_full_bounds (L : Int) (h : 0 ≤ L) :
    PySlice.indices ⟨some 0, some L, some 1⟩ L = .ok (0, L, 1) := by
  unfold PySlice.indices
  rw [if_neg (by omega)]
  simp
  omega

/-- Binding an `Except` computation into a pure constructor application is the
functorial map. -/
theorem except_bind_pure_list (x : Except PyError (List Value)) :
    (x >>= fun vals => pure (PyObj.list vals)) = x.map PyObj.list := by
  cases x <;> rfl

end Vectors

namespace Vectors

/-! ## Claims -/

/-- C1: For the scalar element view, `_unpack_index(i)` is claimed to compute
`vector_data_address(field_offset) + i * stride` and return the primitive
decoded by `table.Get` there. The code instead executes
`return self._table.Get(self._flags, offset)` where `offset` is an undefined
name, so every call raises `NameError: name 'offset' is not defined` — for the
test scenario the typed read at the computed address would have produced `10`.
-/
theorem simple_unpack_index_raises_nameError :
    (∀ (t : Table) (o : Int) (f : Flags) (i : Int),
      (SimpleVectorIndexer.make t o f).unpackIndex i =
        .error (.nameError "offset")) ∧
    testTable.Get int32Flags (testTable.Vector 4 + 0 * int32Flags.bytewidth) = 10 :=
  ⟨fun _ _ _ _ => rfl, rfl⟩

/-- C2: Iterating a vector view is claimed to yield exactly `length()`
elements in index order. But `__iter__` constructs `VectorIterator(self)`,
whose `__init__` executes `self._length = len(vector)` with `vector` an
undefined name, so obtaining the iterator raises
`NameError: name 'vector' is not defined` for every view and iteration yields
nothing. -/
theorem iter_raises_nameError :
    ∀ vi : VIndexer, vi.iter = Except.error (PyError.nameError "vector") :=
  fun _ => rfl

/-- C3: Single-index access with an integer key `i` with
`i < 0 ∨ i ≥ length` raises `IndexError` with the out-of-range message and
never clamps; in particular `get(0)` on an empty vector fails out-of-range
(see the witness). -/
theorem getitem_out_of_range (vi : VIndexer) (i : Int)
    (h : i < 0 ∨ i ≥ vi.core.length) :
    vi.getitem (.int i) =
      .error (.indexError ("vector index " ++ toString i ++ " out of range")) := by
  simp [VIndexer.getitem, PyKey.isInt, PyKey.asInt, h]

/-- Witness for C3: on the empty vector view (`length = 0`), index `0` is out
of range and access raises the `IndexError`. -/
theorem getitem_out_of_range_witness :
    ((0 : Int) < 0 ∨ (0 : Int) ≥ emptyTestVI.core.length) ∧
    emptyTestVI.getitem (.int 0) =
      .error (.indexError ("vector index " ++ toString (0 : Int) ++ " out of range")) :=
  ⟨Or.inr (by decide), getitem_out_of_range emptyTestVI 0 (Or.inr (by decide))⟩

/-- C4: Constructing a `StringVectorIndexer` is claimed to perform a plain
base-class initialization with the explicit stride. The code instead calls
`super(SimpleVectorIndexer, self).__init__(...)`; since `StringVectorIndexer`
is not a subclass of `SimpleVectorIndexer`, `super` raises `TypeError` and
construction always fails — the spec-intended construction
(`StringVectorIndexer.intendedMake`) would have stored exactly the base state.
-/
theorem stringVector_init_raises_typeError :
    (∀ (t : Table) (o s : Int),
      StringVectorIndexer.make t o s =
        .error (.typeError "super(type, obj): obj must be an instance or subtype of type")) ∧
    (StringVectorIndexer.intendedMake testTable 4 4).core =
      VectorIndexer.make testTable 4 4 :=
  ⟨fun _ _ _ => rfl, rfl⟩

/-- C5: The scalar view's slice access is claimed to equal the base class's
generic per-index materialization. The override's body is a bare `pass`, so it
returns `None` and discards the request, while the base implementation on the
same view and slice performs per-index unpacking (here surfacing the scalar
unpack's `NameError` instead of returning `None`). -/
theorem simple_slice_discards_request :
    simpleTestVI.unpackSliceIndex ⟨some 0, some 3, some 1⟩ = .ok (.val .pynone) ∧
    simpleTestVI.baseUnpackSliceIndex ⟨some 0, some 3, some 1⟩ =
      .error (.nameError "offset") :=
  ⟨rfl, rfl⟩

/-- C6: The base slice implementation applied with full bounds
`slice(0, length, 1)` materializes exactly the full-iteration sequence: one
`_unpack_index` per index `0, 1, …, length-1`, in order, collected into a
list. -/
theorem base_slice_full_bounds_eq_iteration (vi : VIndexer)
    (h : 0 ≤ vi.core.length) :
    vi.baseUnpackSliceIndex ⟨some 0, some vi.core.length, some 1⟩ =
      ((List.range vi.core.length.toNat).mapM
        (fun k => vi.unpackIndex (k : Int))).map PyObj.list := by
  unfold VIndexer.baseUnpackSliceIndex
  rw [indices_full_bounds _ h]
  show ((range_func (0, vi.core.length, 1)).mapM vi.unpackIndex) >>= _ = _
  rw [show range_func (0, vi.core.length, 1) = rangeList 0 vi.core.length 1 from rfl,
    rangeList_zero_len_one, mapM_map_cast]
  exact except_bind_pure_list _

/-- Witness for C6: on the concrete struct vector view of length 3, the
full-bounds slice equals the full-iteration sequence. -/
theorem base_slice_full_bounds_eq_iteration_witness :
    0 ≤ structTestVI.core.length ∧
    structTestVI.baseUnpackSliceIndex
        ⟨some 0, some structTestVI.core.length, some 1⟩ =
      ((List.range structTestVI.core.length.toNat).mapM
        (fun k => structTestVI.unpackIndex (k : Int))).map PyObj.list :=
  ⟨by decide, base_slice_full_bounds_eq_iteration structTestVI (by decide)⟩

/-- C7: The iterator is claimed to be a forward-only two-state machine created
fresh with cursor 0. Its advance step does behave that way on an iterator
state (active state returns the element at the cursor and increments it;
exhausted state raises `StopIteration`), but a fresh iterator can never be
created: `VectorIterator.__init__` raises `NameError: name 'vector' is not
defined`, so the machine is unreachable from the public interface. -/
theorem iterator_state_machine_broken :
    VectorIterator.make structTestVI = .error (.nameError "vector") ∧
    (VectorIterator.intendedMake structTestVI).next_index = 0 ∧
    VectorIterator.next ⟨structTestVI, 0, 3⟩ =
      .ok (.val (.struct 7 testTable.Bytes 100), ⟨structTestVI, 1, 3⟩) ∧
    VectorIterator.next ⟨structTestVI, 3, 3⟩ = .error .stopIteration :=
  ⟨rfl, rfl, rfl, rfl⟩

/-- C8: For the struct element view, `_unpack_index(i)` for in-range `i`
computes `address = table.Vector(offset) + i * stride` and returns a fresh
struct projection of the stored class anchored at that address over the same
table's byte buffer. -/
theorem struct_unpack_index_formula (t : Table) (o s : Int) (cls : Nat)
    (i : Int) (h0 : 0 ≤ i)
    (h1 : i < (StructVectorIndexer.make t o s cls).core.length) :
    (StructVectorIndexer.make t o s cls).unpackIndex i =
      .ok (.struct cls t.Bytes (t.Vector o + i * s)) :=
  rfl

/-- Witness for C8: index 1 of the concrete struct view (length 3, stride 8)
yields the projection anchored at `Vector(4) + 1 * 8 = 108`. -/
theorem struct_unpack_index_formula_witness :
    ((0 : Int) ≤ 1 ∧
      (1 : Int) < (StructVectorIndexer.make testTable 4 8 7).core.length) ∧
    (StructVectorIndexer.make testTable 4 8 7).unpackIndex 1 =
      .ok (.struct 7 testTable.Bytes (testTable.Vector 4 + 1 * 8)) :=
  ⟨⟨by decide, by decide⟩,
    struct_unpack_index_formula testTable 4 8 7 1 (by decide) (by decide)⟩

/-- C9: An index key that is neither integer-like nor a slice (e.g. a string
or float key) makes `__getitem__` raise `TypeError` naming the key's type —
not an `IndexError` and not a decoded value. -/
theorem getitem_bad_key_typeError (vi : VIndexer) (k : PyKey)
    (h1 : k.isInt = false) (h2 : k.isSlice = false) :
    vi.getitem k =
      .error (.typeError
        ("vector indices must be integers or slices, not " ++ k.typeName)) := by
  cases k <;> first
    | rfl
    | simp_all [PyKey.isInt, PyKey.isSlice]

/-- Witness for C9: a string key `"key"` is neither integer-like nor a slice
and access with it raises the `TypeError`. -/
theorem getitem_bad_key_typeError_witness :
    (PyKey.isInt (.str "key") = false ∧ PyKey.isSlice (.str "key") = false) ∧
    structTestVI.getitem (.str "key") =
      .error (.typeError
        ("vector indices must be integers or slices, not " ++
          PyKey.typeName (.str "key"))) :=
  ⟨⟨rfl, rfl⟩, getitem_bad_key_typeError structTestVI (.str "key") rfl rfl⟩

/-- C10: A boolean index key is accepted by the integer branch of the key
dispatch (Python `bool` is a subclass of `int`): on a view with
`length ≥ 2`, `__getitem__(True)` behaves exactly as `get(1)` and
`__getitem__(False)` exactly as `get(0)` (both reaching `_unpack_index`, not a
`TypeError`). -/
theorem getitem_bool_key (vi : VIndexer) (h : 2 ≤ vi.core.length) :
    vi.getitem (.bool true) = vi.getitem (.int 1) ∧
    vi.getitem (.bool false) = vi.getitem (.int 0) ∧
    vi.getitem (.int 1) = (vi.unpackIndex 1).map .val ∧
    vi.getitem (.int 0) = (vi.unpackIndex 0).map .val := by
  have h1 : ¬((1 : Int) < 0 ∨ (1 : Int) ≥ vi.core.length) := by omega
  have h0 : ¬((0 : Int) < 0 ∨ (0 : Int) ≥ vi.core.length) := by omega
  refine ⟨rfl, rfl, ?_, ?_⟩
  · show (if (1 : Int) < 0 ∨ (1 : Int) ≥ vi.core.length
        then Except.error (PyError.indexError
          ("vector index " ++ toString (1 : Int) ++ " out of range"))
        else (vi.unpackIndex 1).map PyObj.val) = (vi.unpackIndex 1).map PyObj.val
    exact if_neg h1
  · show (if (0 : Int) < 0 ∨ (0 : Int) ≥ vi.core.length
        then Except.error (PyError.indexError
          ("vector index " ++ toString (0 : Int) ++ " out of range"))
        else (vi.unpackIndex 0).map PyObj.val) = (vi.unpackIndex 0).map PyObj.val
    exact if_neg h0

/-- Witness for C10: the concrete struct view has length 3 ≥ 2, and boolean
keys behave as the corresponding integer keys. -/
theorem getitem_bool_key_witness :
    2 ≤ structTestVI.core.length ∧
    (structTestVI.getitem (.bool true) = structTestVI.getitem (.int 1) ∧
     structTestVI.getitem (.bool false) = structTestVI.getitem (.int 0) ∧
     structTestVI.getitem (.int 1) = (structTestVI.unpackIndex 1).map .val ∧
     structTestVI.getitem (.int 0) = (structTestVI.unpackIndex 0).map .val) :=
  ⟨by decide, getitem_bool_key structTestVI (by decide)⟩

end Vectors
